import Mathlib

/-!
Shallow embedding of the cepton_ros driver nodelet and the Cepton SDK
geometry utilities, together with theorems settling the frozen claims
about the natural-language specification.

Sources embedded:
- src/src/driver_nodelet.cpp (namespace cepton_ros, DriverNodelet)
- src/third_party/cepton_sdk/include/cepton_sdk_util.hpp (namespace cepton_sdk)
- src/third_party/cepton_sdk/include/cepton_sdk.h (data declarations)

Machine integers (uint64_t timestamps, serial numbers, handles) are modelled
as Nat: the only operations performed on them are copies and max, which
cannot overflow. float values are modelled as real numbers (the geometric
claims are stated by the spec "in exact arithmetic").
-/

namespace CeptonRos

/-! ## Geometry utilities (cepton_sdk_util.hpp) -/

/-- cepton_sdk_util.hpp lines 21-24: `template <typename T> T square(T x) { return x * x; }`. -/
def square (x : ℝ) : ℝ := x * x

/-- cepton_sdk_util.hpp lines 75-85, `convert_image_point_to_point`:
given image coordinates and a distance, computes
`hypotenuse_small = sqrt(square(image_x) + square(image_z) + focal_length_squared)`
with `focal_length_squared = 1`, `ratio = distance / hypotenuse_small`, and
returns the triple `(x, y, z) = (-image_x * ratio, ratio, -image_z * ratio)`
(the C++ writes through the three output reference parameters). -/
noncomputable def convert_image_point_to_point (image_x image_z distance : ℝ) :
    ℝ × ℝ × ℝ :=
  let focal_length_squared : ℝ := 1
  let hypotenuse_small :=
    Real.sqrt (square image_x + square image_z + focal_length_squared)
  let r := distance / hypotenuse_small
  (-image_x * r, r, -image_z * r)

/-- Transcription of the spec's contract for `imageToCartesian` (spec §4.2),
used only as the comparison side of the refinement claim C3:
`h = sqrt(image_x² + image_z² + 1)`, `ratio = distance / h`,
result `(-image_x·ratio, ratio, -image_z·ratio)`. -/
noncomputable def imageToCartesian_spec (image_x image_z distance : ℝ) :
    ℝ × ℝ × ℝ :=
  let h := Real.sqrt (image_x ^ 2 + image_z ^ 2 + 1)
  let r := distance / h
  (-image_x * r, r, -image_z * r)

/-- cepton_sdk.h lines 127-135, `struct CeptonSensorImagePoint`:
timestamp (unix microseconds), image_x, distance, image_z, intensity,
return_number, valid (1 = valid; 0 = clipped/invalid). -/
structure CeptonSensorImagePoint where
  timestamp : Nat
  image_x : ℝ
  distance : ℝ
  image_z : ℝ
  intensity : ℝ
  return_number : Nat
  valid : Nat

/-- cepton_sdk_util.hpp lines 89-97, `struct cepton_sdk::SensorPoint`:
timestamp, Cartesian x/y/z, intensity, return_number, valid. -/
structure SensorPoint where
  timestamp : Nat
  x : ℝ
  y : ℝ
  z : ℝ
  intensity : ℝ
  return_number : Nat
  valid : Nat

/-- cepton_sdk_util.hpp lines 102-111, `convert_sensor_image_point_to_point`:
copies timestamp, intensity, return_number and valid from the image point and
fills x/y/z by `convert_image_point_to_point(image_x, image_z, distance, ...)`. -/
noncomputable def convert_sensor_image_point_to_point
    (image_point : CeptonSensorImagePoint) : SensorPoint :=
  let c := convert_image_point_to_point image_point.image_x image_point.image_z
    image_point.distance
  { timestamp := image_point.timestamp,
    intensity := image_point.intensity,
    return_number := image_point.return_number,
    valid := image_point.valid,
    x := c.1,
    y := c.2.1,
    z := c.2.2 }

/-! ## Driver nodelet data model (driver_nodelet.cpp) -/

/-- The point type received by `DriverNodelet::on_receive`
(`CeptonSensorPoint const *points`). The struct itself comes from the SDK
version this driver builds against; the fields below are exactly those the
driver reads at driver_nodelet.cpp lines 137 and 148-152:
`timestamp`, `x`, `y`, `z`, `intensity`. -/
structure CeptonSensorPoint where
  timestamp : Nat
  x : ℝ
  y : ℝ
  z : ℝ
  intensity : ℝ

/-- The PCL point type `cepton_ros::CeptonPoint` as used by the driver: the
loop at driver_nodelet.cpp lines 145-155 assigns exactly the fields
`timestamp`, `x`, `y`, `z`, `intensity` of each output point. -/
structure CeptonPoint where
  timestamp : Nat
  x : ℝ
  y : ℝ
  z : ℝ
  intensity : ℝ

/-- PCL point-cloud header: `header.stamp` (uint64 microseconds) and
`header.frame_id`, as set at driver_nodelet.cpp lines 141-142. -/
structure PCLHeader where
  stamp : Nat
  frame_id : String

/-- The cloud type pcl PointCloud of CeptonPoint as used by the driver: header, height,
width and the stored point sequence. A freshly constructed cloud has
`width = 0` and `points = []`. -/
structure CeptonPointCloud where
  header : PCLHeader
  height : Nat
  width : Nat
  points : List CeptonPoint

/-- cepton_sdk.h lines 93-120, `struct CeptonSensorInformation`, restricted to
the fields the driver reads (driver_nodelet.cpp lines 11-13 and 112-120):
handle, serial_number, model_name, firmware_version. -/
structure CeptonSensorInformation where
  handle : Nat
  serial_number : Nat
  model_name : String
  firmware_version : String
deriving DecidableEq

/-- The `cepton_ros::SensorInformation` ROS message as filled by
`publish_sensor_information` (driver_nodelet.cpp lines 112-120). -/
structure SensorInformationMsg where
  handle : Nat
  serial_number : Nat
  model_name : String
  firmware_version : String
deriving DecidableEq

/-- A `ros::Publisher`: modelled by a unique allocation id (advertise creates
a fresh sink) and the topic it was advertised under. -/
structure Publisher where
  id : Nat
  topic : String
deriving DecidableEq

/-- The mutable members of `DriverNodelet` relevant to the embedded methods:
the `combine_sensors` and `output_namespace` parameters, the combined points
publisher, the `sensor_points_publishers` map (association list, first match
wins) and a counter supplying fresh publisher ids for `advertise`. -/
structure DriverState where
  combine_sensors : Bool
  output_namespace : String
  combined_points_publisher : Publisher
  sensor_points_publishers : List (String × Publisher)
  next_publisher_id : Nat
deriving DecidableEq

/-- driver_nodelet.cpp lines 11-13, `get_sensor_name`:
`std::to_string(sensor_information.serial_number)` — the decimal string form
of the serial number. -/
def get_sensor_name (sensor_information : CeptonSensorInformation) : String :=
  Nat.repr sensor_information.serial_number

/-- driver_nodelet.cpp lines 80-87, `DriverNodelet::get_sensor_points_topic_id`. -/
def get_sensor_points_topic_id (st : DriverState) (sensor_name : String) :
    String :=
  if st.combine_sensors then
    st.output_namespace ++ "_points"
  else
    st.output_namespace ++ "_points_" ++ sensor_name

/-- driver_nodelet.cpp lines 89-96, `DriverNodelet::get_sensor_frame_id`. -/
def get_sensor_frame_id (st : DriverState) (sensor_name : String) : String :=
  if st.combine_sensors then
    st.output_namespace
  else
    st.output_namespace ++ "_" ++ sensor_name

/-- Lookup in the `sensor_points_publishers` map (`count`/`at` on the
`std::map<std::string, ros::Publisher>` member). -/
def find_pub : List (String × Publisher) → String → Option Publisher
  | [], _ => none
  | (k, pub) :: rest, sensor_name =>
    if sensor_name = k then some pub else find_pub rest sensor_name

/-- driver_nodelet.cpp lines 98-110, `DriverNodelet::get_sensor_points_publisher`:
in combined mode returns the combined publisher; otherwise returns the cached
publisher for the sensor name, advertising (allocating) a new one first if the
name has not been seen. Returns the publisher together with the updated
nodelet state. -/
def get_sensor_points_publisher (st : DriverState) (sensor_name : String) :
    Publisher × DriverState :=
  if st.combine_sensors then
    (st.combined_points_publisher, st)
  else
    match find_pub st.sensor_points_publishers sensor_name with
    | some pub => (pub, st)
    | none =>
      let pub : Publisher :=
        ⟨st.next_publisher_id, get_sensor_points_topic_id st sensor_name⟩
      (pub,
        { st with
          sensor_points_publishers :=
            (sensor_name, pub) :: st.sensor_points_publishers,
          next_publisher_id := st.next_publisher_id + 1 })

/-- driver_nodelet.cpp lines 112-120, `DriverNodelet::publish_sensor_information`:
the message published on the sensor-information topic. -/
def publish_sensor_information (sensor_information : CeptonSensorInformation) :
    SensorInformationMsg :=
  { handle := sensor_information.handle,
    serial_number := sensor_information.serial_number,
    model_name := sensor_information.model_name,
    firmware_version := sensor_information.firmware_version }

/-- driver_nodelet.cpp lines 135-138: the first loop of `on_receive`,
`message_timestamp = max(message_timestamp, points[i].timestamp)` starting
from 0. -/
def message_timestamp (points : List CeptonSensorPoint) : Nat :=
  points.foldl (fun acc p => max acc p.timestamp) 0

/-- driver_nodelet.cpp lines 145-155: one iteration of the conversion loop
builds a `CeptonPoint` by copying `timestamp`, `x`, `y`, `z`, `intensity`
verbatim from the input point. -/
def copy_point (p : CeptonSensorPoint) : CeptonPoint :=
  { timestamp := p.timestamp, x := p.x, y := p.y, z := p.z,
    intensity := p.intensity }

/-- driver_nodelet.cpp lines 145-155: the conversion loop, which for each
input point pushes the copied point and increments `width`. -/
def add_points_loop : List CeptonSensorPoint → CeptonPointCloud →
    CeptonPointCloud
  | [], pc => pc
  | p :: rest, pc =>
    add_points_loop rest
      { pc with points := pc.points ++ [copy_point p], width := pc.width + 1 }

/-- driver_nodelet.cpp lines 139-155: the point cloud assembled by
`on_receive` — stamp from `message_timestamp`, frame id from
`get_sensor_frame_id`, `height = 1`, then the conversion loop starting from
`width = 0` and an empty point store. -/
def assembled_cloud (st : DriverState) (sensor_name : String)
    (points : List CeptonSensorPoint) : CeptonPointCloud :=
  add_points_loop points
    { header := { stamp := message_timestamp points,
                  frame_id := get_sensor_frame_id st sensor_name },
      height := 1, width := 0, points := [] }

/-- The observable outcome of one `on_receive` call: warnings logged,
sensor-information messages published, point clouds published, the publisher
the cloud was handed to, and the nodelet state afterwards. -/
structure OnReceiveResult where
  warnings : List String
  published_infos : List SensorInformationMsg
  published_clouds : List CeptonPointCloud
  pub : Publisher
  state : DriverState

/-- driver_nodelet.cpp lines 122-158, `DriverNodelet::on_receive`, given a
valid sensor-information snapshot: logs a warning when `error_code < 0`, then
unconditionally publishes the sensor-information message and the assembled
point cloud on the publisher resolved for the sensor name. -/
def on_receive_run (st : DriverState) (error_code : Int)
    (sensor_information : CeptonSensorInformation)
    (points : List CeptonSensorPoint) : OnReceiveResult :=
  let warnings := if error_code < 0 then ["on_receive failed"] else []
  let sensor_name := get_sensor_name sensor_information
  let pr := get_sensor_points_publisher st sensor_name
  { warnings := warnings,
    published_infos := [publish_sensor_information sensor_information],
    published_clouds := [assembled_cloud st sensor_name points],
    pub := pr.1,
    state := pr.2 }

/-- driver_nodelet.cpp lines 129-132: `on_receive` obtains the
sensor-information snapshot from `cepton_sdk_get_sensor_information` and
dereferences it without a null check. The engine lookup is modelled as an
`Option`; a `none` snapshot makes the dereference undefined, modelled as
`none` (no defined result). -/
def on_receive (st : DriverState) (error_code : Int)
    (sensor_information_ptr : Option CeptonSensorInformation)
    (points : List CeptonSensorPoint) : Option OnReceiveResult :=
  match sensor_information_ptr with
  | none => none
  | some sensor_information =>
    some (on_receive_run st error_code sensor_information points)

/-- Constant CEPTON_EVENT_ATTACH. The event-kind constants are declared by the SDK
version this driver builds against (not by the headers under src); only their
distinctness is used by the embedded switch. -/
def CEPTON_EVENT_ATTACH : Int := 1

/-- Constant CEPTON_EVENT_DETACH. -/
def CEPTON_EVENT_DETACH : Int := 2

/-- Constant CEPTON_EVENT_FRAME. -/
def CEPTON_EVENT_FRAME : Int := 3

/-- The observable outcome of one `on_event` call: warnings and
informational messages logged, anything published, and the nodelet state
afterwards. -/
structure EventOutcome where
  warnings : List String
  infos : List String
  published_infos : List SensorInformationMsg
  published_clouds : List CeptonPointCloud
  state : DriverState

/-- driver_nodelet.cpp lines 160-180, `DriverNodelet::on_event`: on
`error_code < 0` logs a warning and returns immediately; otherwise logs an
informational message for Attach and Detach, and does nothing for Frame or
any other event value (the switch has no default case). Nothing is published
and no nodelet member is touched. -/
def on_event (st : DriverState) (error_code : Int)
    (sensor_information : CeptonSensorInformation) (sensor_event : Int) :
    EventOutcome :=
  if error_code < 0 then
    { warnings := ["on_event failed"], infos := [], published_infos := [],
      published_clouds := [], state := st }
  else
    let sensor_name := get_sensor_name sensor_information
    { warnings := [],
      infos :=
        if sensor_event = CEPTON_EVENT_ATTACH then
          ["sensor connected: " ++ sensor_name]
        else if sensor_event = CEPTON_EVENT_DETACH then
          ["sensor disconnected: " ++ sensor_name]
        else [],
      published_infos := [],
      published_clouds := [],
      state := st }

/-! ## Helper lemmas -/

/-- The conversion loop appends the copied points in order, adds the batch
size to `width`, and leaves `height` and the header untouched. -/
theorem add_points_loop_spec (points : List CeptonSensorPoint)
    (pc : CeptonPointCloud) :
    (add_points_loop points pc).points = pc.points ++ points.map copy_point ∧
    (add_points_loop points pc).width = pc.width + points.length ∧
    (add_points_loop points pc).height = pc.height ∧
    (add_points_loop points pc).header = pc.header := by
  induction points generalizing pc with
  | nil => simp [add_points_loop]
  | cons p rest ih =>
    have h := ih { pc with points := pc.points ++ [copy_point p],
                           width := pc.width + 1 }
    simp only [add_points_loop] at *
    refine ⟨?_, ?_, h.2.2.1, h.2.2.2⟩
    · rw [h.1]; simp
    · rw [h.2.1]; simp; omega

/-- The seed of the timestamp fold is a lower bound of the fold. -/
theorem le_foldl_max_seed (points : List CeptonSensorPoint) (b : Nat) :
    b ≤ points.foldl (fun acc p => max acc p.timestamp) b := by
  induction points generalizing b with
  | nil => exact Nat.le_refl b
  | cons p rest ih =>
    simp only [List.foldl_cons]
    exact Nat.le_trans (Nat.le_max_left b p.timestamp) (ih (max b p.timestamp))

/-- Every timestamp in the batch is bounded by the timestamp fold. -/
theorem mem_timestamp_le_foldl_max {p : CeptonSensorPoint}
    {points : List CeptonSensorPoint} (hp : p ∈ points) (b : Nat) :
    p.timestamp ≤ points.foldl (fun acc q => max acc q.timestamp) b := by
  induction points generalizing b with
  | nil => cases hp
  | cons q rest ih =>
    simp only [List.foldl_cons]
    rcases List.mem_cons.mp hp with h | h
    · subst h
      exact Nat.le_trans (Nat.le_max_right b p.timestamp)
        (le_foldl_max_seed rest (max b p.timestamp))
    · exact ih h (max b q.timestamp)

/-- The timestamp fold equals its seed or a timestamp from the batch. -/
theorem foldl_max_attained (points : List CeptonSensorPoint) (b : Nat) :
    points.foldl (fun acc p => max acc p.timestamp) b = b ∨
    ∃ p ∈ points, points.foldl (fun acc q => max acc q.timestamp) b
      = p.timestamp := by
  induction points generalizing b with
  | nil => exact Or.inl rfl
  | cons p rest ih =>
    simp only [List.foldl_cons]
    rcases ih (max b p.timestamp) with h | ⟨q, hq, hval⟩
    · rcases Nat.le_total b p.timestamp with hb | hb
      · exact Or.inr ⟨p, List.mem_cons_self p rest,
          by rw [h, Nat.max_eq_right hb]⟩
      · exact Or.inl (by rw [h, Nat.max_eq_left hb])
    · exact Or.inr ⟨q, List.mem_cons_of_mem p hq, hval⟩

/-- The timestamp fold is invariant under permutation of the batch. -/
theorem foldl_max_perm {l1 l2 : List CeptonSensorPoint} (h : l1.Perm l2) :
    ∀ b : Nat, l1.foldl (fun acc p => max acc p.timestamp) b
      = l2.foldl (fun acc p => max acc p.timestamp) b := by
  induction h with
  | nil => intro b; rfl
  | cons x _ ih =>
    intro b
    simp only [List.foldl_cons]
    exact ih (max b x.timestamp)
  | swap x y l =>
    intro b
    simp only [List.foldl_cons]
    rw [Nat.max_right_comm b y.timestamp x.timestamp]
  | trans _ _ ih1 ih2 =>
    intro b
    exact (ih1 b).trans (ih2 b)

/-- Value of message_timestamp on the empty batch is 0. -/
theorem message_timestamp_nil : message_timestamp [] = 0 := rfl

/-- The assembled cloud's stamp is the timestamp fold of the batch. -/
theorem assembled_cloud_stamp (st : DriverState) (sensor_name : String)
    (points : List CeptonSensorPoint) :
    (assembled_cloud st sensor_name points).header.stamp
      = message_timestamp points := by
  unfold assembled_cloud
  rw [(add_points_loop_spec _ _).2.2.2]

/-! ## Claim theorems -/

/-- C1: for every batch processed by on_receive, the published frame's
timestamp equals the maximum of the points' timestamps (it is an upper bound
attained by some point of a nonempty batch), equals 0 for the empty batch —
which still yields a well-formed zero-point frame — and is invariant under
any reordering of the input batch. -/
theorem C1_frame_timestamp_is_max (st : DriverState) (error_code : Int)
    (sensor_information : CeptonSensorInformation)
    (points : List CeptonSensorPoint) :
    (on_receive_run st error_code sensor_information points).published_clouds
      = [assembled_cloud st (get_sensor_name sensor_information) points] ∧
    (assembled_cloud st (get_sensor_name sensor_information)
        points).header.stamp = message_timestamp points ∧
    (points = [] →
      (assembled_cloud st (get_sensor_name sensor_information)
          points).header.stamp = 0 ∧
      (assembled_cloud st (get_sensor_name sensor_information)
          points).points = []) ∧
    (∀ p ∈ points, p.timestamp ≤
      (assembled_cloud st (get_sensor_name sensor_information)
          points).header.stamp) ∧
    (points ≠ [] → ∃ p ∈ points, p.timestamp =
      (assembled_cloud st (get_sensor_name sensor_information)
          points).header.stamp) ∧
    (∀ points2 : List CeptonSensorPoint, points.Perm points2 →
      (assembled_cloud st (get_sensor_name sensor_information)
          points2).header.stamp =
      (assembled_cloud st (get_sensor_name sensor_information)
          points).header.stamp) := by
  refine ⟨rfl, assembled_cloud_stamp _ _ _, ?_, ?_, ?_, ?_⟩
  · intro hnil
    subst hnil
    refine ⟨by rw [assembled_cloud_stamp]; rfl, ?_⟩
    unfold assembled_cloud
    rw [(add_points_loop_spec _ _).1]
    simp
  · intro p hp
    rw [assembled_cloud_stamp]
    exact mem_timestamp_le_foldl_max hp 0
  · intro hne
    rw [assembled_cloud_stamp]
    rcases foldl_max_attained points 0 with h0 | ⟨p, hp, hval⟩
    · cases points with
      | nil => exact absurd rfl hne
      | cons p rest =>
        refine ⟨p, List.mem_cons_self p rest, ?_⟩
        have hle : p.timestamp ≤ message_timestamp (p :: rest) :=
          mem_timestamp_le_foldl_max (List.mem_cons_self p rest) 0
        have hz : message_timestamp (p :: rest) = 0 := h0
        omega
    · exact ⟨p, hp, hval.symm⟩
  · intro points2 hperm
    rw [assembled_cloud_stamp, assembled_cloud_stamp]
    exact (foldl_max_perm hperm 0).symm

/-- Concrete sensor information used by the witness theorems. -/
def wit_info : CeptonSensorInformation :=
  { handle := 1, serial_number := 1001, model_name := "HR80W",
    firmware_version := "v1" }

/-- Concrete nodelet state used by the witness theorems: per-sensor mode. -/
def wit_state : DriverState :=
  { combine_sensors := false, output_namespace := "cepton",
    combined_points_publisher := ⟨0, ""⟩, sensor_points_publishers := [],
    next_publisher_id := 1 }

/-- Concrete input point with timestamp 100. -/
def wit_p1 : CeptonSensorPoint := ⟨100, 0, 0, 0, 0⟩

/-- Concrete input point with timestamp 50. -/
def wit_p2 : CeptonSensorPoint := ⟨50, 0, 0, 0, 0⟩

/-- C1 witness: at a concrete two-point batch, the frame timestamp bounds the
first point's timestamp and is unchanged by swapping the two points. -/
theorem C1_frame_timestamp_is_max_witness :
    wit_p1.timestamp ≤
      (assembled_cloud wit_state (get_sensor_name wit_info)
          [wit_p1, wit_p2]).header.stamp ∧
    (assembled_cloud wit_state (get_sensor_name wit_info)
        [wit_p2, wit_p1]).header.stamp =
      (assembled_cloud wit_state (get_sensor_name wit_info)
          [wit_p1, wit_p2]).header.stamp ∧
    message_timestamp [wit_p1, wit_p2] = 100 :=
  ⟨(C1_frame_timestamp_is_max wit_state 0 wit_info
      [wit_p1, wit_p2]).2.2.2.1 wit_p1 (List.mem_cons_self wit_p1 [wit_p2]),
   (C1_frame_timestamp_is_max wit_state 0 wit_info
      [wit_p1, wit_p2]).2.2.2.2.2 [wit_p2, wit_p1]
      (List.Perm.swap wit_p2 wit_p1 []),
   by decide⟩

/-- C2 counterexample: on_receive's frame assembly does not apply the
image-to-Cartesian conversion. For the raw measurement with float fields
(1, 5, 0) — image_x = 1, distance = 5, image_z = 0 under the spec's reading —
the conversion produces x = -1·(5/√2) < 0, while the driver's per-point
assembly copies the first coordinate verbatim, producing x = 1. -/
theorem C2_counterexample :
    (copy_point ⟨0, 1, 5, 0, 1⟩).x ≠
      (convert_sensor_image_point_to_point
        { timestamp := 0, image_x := 1, distance := 5, image_z := 0,
          intensity := 1, return_number := 0, valid := 1 }).x := by
  have hcopy : (copy_point ⟨0, 1, 5, 0, 1⟩).x = 1 := rfl
  have harg : square (1 : ℝ) + square (0 : ℝ) + 1 = 2 := by
    unfold square; norm_num
  have hconv : (convert_sensor_image_point_to_point
      { timestamp := 0, image_x := 1, distance := 5, image_z := 0,
        intensity := 1, return_number := 0, valid := 1 }).x
      = -1 * (5 / Real.sqrt 2) := by
    simp only [convert_sensor_image_point_to_point,
      convert_image_point_to_point]
    rw [harg]
  have hs2 : (0:ℝ) < Real.sqrt 2 := Real.sqrt_pos.mpr (by norm_num)
  have hdiv : (0:ℝ) < 5 / Real.sqrt 2 := div_pos (by norm_num) hs2
  rw [hcopy, hconv]
  intro heq
  nlinarith

/-- C2 (amended): for every raw point in a batch, frame assembly copies the
point's timestamp, x, y, z and intensity verbatim into the output point
(no image-to-Cartesian conversion is applied in on_receive, and return
metadata is not part of the output point), preserving input order in the
published frame. -/
theorem C2_points_copied_in_order (st : DriverState) (error_code : Int)
    (sensor_information : CeptonSensorInformation)
    (points : List CeptonSensorPoint) :
    (on_receive_run st error_code sensor_information points).published_clouds
      = [assembled_cloud st (get_sensor_name sensor_information) points] ∧
    (assembled_cloud st (get_sensor_name sensor_information) points).points
      = points.map copy_point := by
  refine ⟨rfl, ?_⟩
  unfold assembled_cloud
  rw [(add_points_loop_spec _ _).1]
  simp

/-- C3: for every input triple, `convert_image_point_to_point` computes
exactly the spec's formula — h = sqrt(image_x² + image_z² + 1) (focal length
1), ratio = distance / h, result (-image_x·ratio, ratio, -image_z·ratio). -/
theorem C3_imageToCartesian_matches_spec (image_x image_z distance : ℝ) :
    convert_image_point_to_point image_x image_z distance
      = imageToCartesian_spec image_x image_z distance := by
  simp only [convert_image_point_to_point, imageToCartesian_spec, square]
  rw [show image_x * image_x + image_z * image_z + 1
        = image_x ^ 2 + image_z ^ 2 + 1 by ring]

/-- C7: for every input triple with distance ≥ 0, the Cartesian point
returned by the image-to-Cartesian conversion has Euclidean norm equal to
the input distance (exact real arithmetic). -/
theorem C7_conversion_preserves_distance (image_x image_z distance : ℝ)
    (hd : 0 ≤ distance) :
    Real.sqrt ((convert_image_point_to_point image_x image_z distance).1 ^ 2
      + (convert_image_point_to_point image_x image_z distance).2.1 ^ 2
      + (convert_image_point_to_point image_x image_z distance).2.2 ^ 2)
      = distance := by
  have hs : (0:ℝ) < square image_x + square image_z + 1 := by
    have h1 := mul_self_nonneg image_x
    have h2 := mul_self_nonneg image_z
    unfold square
    linarith
  have hpos : 0 < Real.sqrt (square image_x + square image_z + 1) :=
    Real.sqrt_pos.mpr hs
  have hsq : Real.sqrt (square image_x + square image_z + 1) ^ 2
      = square image_x + square image_z + 1 := Real.sq_sqrt hs.le
  have hx : (convert_image_point_to_point image_x image_z distance).1
      = -image_x * (distance /
          Real.sqrt (square image_x + square image_z + 1)) := rfl
  have hy : (convert_image_point_to_point image_x image_z distance).2.1
      = distance / Real.sqrt (square image_x + square image_z + 1) := rfl
  have hz : (convert_image_point_to_point image_x image_z distance).2.2
      = -image_z * (distance /
          Real.sqrt (square image_x + square image_z + 1)) := rfl
  rw [hx, hy, hz]
  have key : (-image_x * (distance /
        Real.sqrt (square image_x + square image_z + 1))) ^ 2
      + (distance / Real.sqrt (square image_x + square image_z + 1)) ^ 2
      + (-image_z * (distance /
          Real.sqrt (square image_x + square image_z + 1))) ^ 2
      = distance ^ 2 := by
    have expand : (-image_x * (distance /
          Real.sqrt (square image_x + square image_z + 1))) ^ 2
        + (distance / Real.sqrt (square image_x + square image_z + 1)) ^ 2
        + (-image_z * (distance /
            Real.sqrt (square image_x + square image_z + 1))) ^ 2
        = (square image_x + square image_z + 1) * distance ^ 2
            / Real.sqrt (square image_x + square image_z + 1) ^ 2 := by
      unfold square
      field_simp
      ring
    rw [expand, hsq]
    field_simp
  rw [key]
  exact Real.sqrt_sq hd

/-- C7 witness: at image_x = 0, image_z = 0, distance = 5, the hypothesis
0 ≤ 5 holds and the converted point has norm 5. -/
theorem C7_conversion_preserves_distance_witness :
    (0:ℝ) ≤ 5 ∧
    Real.sqrt ((convert_image_point_to_point 0 0 5).1 ^ 2
      + (convert_image_point_to_point 0 0 5).2.1 ^ 2
      + (convert_image_point_to_point 0 0 5).2.2 ^ 2) = 5 :=
  ⟨by norm_num, C7_conversion_preserves_distance 0 0 5 (by norm_num)⟩

/-- C10: every cloud published by on_receive is organized-less well-formed:
height = 1 and width equals the number of stored points, which equals the
number of raw points in the input batch. -/
theorem C10_published_cloud_well_formed (st : DriverState) (error_code : Int)
    (sensor_information : CeptonSensorInformation)
    (points : List CeptonSensorPoint) :
    (on_receive_run st error_code sensor_information points).published_clouds
      = [assembled_cloud st (get_sensor_name sensor_information) points] ∧
    (assembled_cloud st (get_sensor_name sensor_information) points).height
      = 1 ∧
    (assembled_cloud st (get_sensor_name sensor_information) points).width
      = (assembled_cloud st (get_sensor_name sensor_information)
          points).points.length ∧
    (assembled_cloud st (get_sensor_name sensor_information)
        points).points.length = points.length := by
  refine ⟨rfl, ?_, ?_, ?_⟩
  · unfold assembled_cloud
    rw [(add_points_loop_spec _ _).2.2.1]
  · unfold assembled_cloud
    rw [(add_points_loop_spec _ _).2.1, (add_points_loop_spec _ _).1]
    simp
  · unfold assembled_cloud
    rw [(add_points_loop_spec _ _).1]
    simp

/-- C4: every invocation of on_receive (given a valid snapshot) performs full
processing regardless of the error code: exactly one sensor-information notice
and exactly one assembled frame are published on every receive, the batch is
never discarded, and a warning is logged exactly when error_code < 0. -/
theorem C4_error_code_never_discards_batch (st : DriverState)
    (error_code : Int) (sensor_information : CeptonSensorInformation)
    (points : List CeptonSensorPoint) :
    (on_receive_run st error_code sensor_information points).published_infos
      = [publish_sensor_information sensor_information] ∧
    (on_receive_run st error_code sensor_information points).published_clouds
      = [assembled_cloud st (get_sensor_name sensor_information) points] ∧
    (on_receive_run st error_code sensor_information points).warnings
      = (if error_code < 0 then ["on_receive failed"] else []) := by
  exact ⟨rfl, rfl, rfl⟩

/-- C5: per-channel-key create-at-most-once semantics of
get_sensor_points_publisher — a second lookup of the same key returns the
identical publisher and leaves the state unchanged; existing registry entries
are never removed or overwritten by a lookup; and the only possible mutation
of the registry is the insertion of a publisher under a previously absent
key. -/
theorem C5_channel_created_once (st : DriverState) (sensor_name : String) :
    (get_sensor_points_publisher
        (get_sensor_points_publisher st sensor_name).2 sensor_name).1
      = (get_sensor_points_publisher st sensor_name).1 ∧
    (get_sensor_points_publisher
        (get_sensor_points_publisher st sensor_name).2 sensor_name).2
      = (get_sensor_points_publisher st sensor_name).2 ∧
    (∀ (k : String) (pub : Publisher),
      find_pub st.sensor_points_publishers k = some pub →
      find_pub ((get_sensor_points_publisher st
          sensor_name).2).sensor_points_publishers k = some pub) ∧
    (((get_sensor_points_publisher st sensor_name).2).sensor_points_publishers
        = st.sensor_points_publishers ∨
      (find_pub st.sensor_points_publishers sensor_name = none ∧
        ((get_sensor_points_publisher st
            sensor_name).2).sensor_points_publishers
          = (sensor_name, (get_sensor_points_publisher st sensor_name).1)
              :: st.sensor_points_publishers)) := by
  by_cases hc : st.combine_sensors
  · simp [get_sensor_points_publisher, hc]
  · cases hf : find_pub st.sensor_points_publishers sensor_name with
    | some pub =>
      simp [get_sensor_points_publisher, hc, hf]
    | none =>
      refine ⟨?_, ?_, ?_, ?_⟩
      · simp [get_sensor_points_publisher, hc, hf, find_pub]
      · simp [get_sensor_points_publisher, hc, hf, find_pub]
      · intro k pub hk
        simp only [get_sensor_points_publisher, hc, hf]
        simp only [Bool.false_eq_true, if_false, find_pub]
        have hne : k ≠ sensor_name := by
          intro he
          subst he
          rw [hk] at hf
          cases hf
        rw [if_neg hne]
        exact hk
      · right
        refine ⟨rfl, ?_⟩
        simp [get_sensor_points_publisher, hc, hf]

/-- C5 witness: in a concrete per-sensor state holding a publisher for key
"7", looking up the fresh key "1001" twice returns the same publisher without
further mutation, and the pre-existing entry for "7" survives. -/
theorem C5_channel_created_once_witness :
    (get_sensor_points_publisher
        (get_sensor_points_publisher
          { combine_sensors := false, output_namespace := "cepton",
            combined_points_publisher := ⟨0, ""⟩,
            sensor_points_publishers := [("7", ⟨5, "cepton_points_7"⟩)],
            next_publisher_id := 6 } "1001").2 "1001").1
      = (get_sensor_points_publisher
          { combine_sensors := false, output_namespace := "cepton",
            combined_points_publisher := ⟨0, ""⟩,
            sensor_points_publishers := [("7", ⟨5, "cepton_points_7"⟩)],
            next_publisher_id := 6 } "1001").1 ∧
    find_pub ((get_sensor_points_publisher
        { combine_sensors := false, output_namespace := "cepton",
          combined_points_publisher := ⟨0, ""⟩,
          sensor_points_publishers := [("7", ⟨5, "cepton_points_7"⟩)],
          next_publisher_id := 6 } "1001").2).sensor_points_publishers "7"
      = some ⟨5, "cepton_points_7"⟩ :=
  ⟨(C5_channel_created_once
      { combine_sensors := false, output_namespace := "cepton",
        combined_points_publisher := ⟨0, ""⟩,
        sensor_points_publishers := [("7", ⟨5, "cepton_points_7"⟩)],
        next_publisher_id := 6 } "1001").1,
   (C5_channel_created_once
      { combine_sensors := false, output_namespace := "cepton",
        combined_points_publisher := ⟨0, ""⟩,
        sensor_points_publishers := [("7", ⟨5, "cepton_points_7"⟩)],
        next_publisher_id := 6 } "1001").2.2.1 "7" ⟨5, "cepton_points_7"⟩
      (by decide)⟩

/-- C6: the derived sensor name is the decimal string form of the serial
number, the points topic is `<namespace>_points` in combined mode and
`<namespace>_points_<sensorName>` otherwise, and a publisher freshly created
for an unseen sensor name is advertised under exactly that topic. -/
theorem C6_channel_naming (st : DriverState)
    (sensor_information : CeptonSensorInformation) :
    get_sensor_name sensor_information
      = Nat.repr sensor_information.serial_number ∧
    get_sensor_points_topic_id st (get_sensor_name sensor_information)
      = (if st.combine_sensors then st.output_namespace ++ "_points"
         else st.output_namespace ++ "_points_"
            ++ Nat.repr sensor_information.serial_number) ∧
    (st.combine_sensors = false →
      find_pub st.sensor_points_publishers
          (get_sensor_name sensor_information) = none →
      ((get_sensor_points_publisher st
          (get_sensor_name sensor_information)).1).topic
        = st.output_namespace ++ "_points_"
            ++ Nat.repr sensor_information.serial_number) := by
  refine ⟨rfl, ?_, ?_⟩
  · by_cases hc : st.combine_sensors <;>
      simp [get_sensor_points_topic_id, get_sensor_name, hc]
  · intro hc hf
    simp only [get_sensor_name] at hf
    simp [get_sensor_points_publisher, hc, hf, get_sensor_points_topic_id,
      get_sensor_name]

/-- C6 witness: with namespace "cepton", serial number 1001 and per-sensor
mode, the freshly created publisher's topic is "cepton_points_1001". -/
theorem C6_channel_naming_witness :
    ((get_sensor_points_publisher wit_state (get_sensor_name wit_info)).1).topic
      = "cepton" ++ "_points_" ++ Nat.repr 1001 :=
  (C6_channel_naming wit_state wit_info).2.2 (by decide) (by decide)

/-- C8: for every invocation of on_event — any error code and any integer
event kind, including values outside {Attach, Detach, Frame} — no nodelet
state is created or destroyed and nothing is published; when error_code < 0
the handler only logs a warning and drops the notification (no informational
message even for Attach/Detach), on success no warning is logged, and a
Frame event or any unrecognized event value produces no action at all. -/
theorem C8_on_event_no_state_effect (st : DriverState) (error_code : Int)
    (sensor_information : CeptonSensorInformation) (sensor_event : Int) :
    (on_event st error_code sensor_information sensor_event).state = st ∧
    (on_event st error_code sensor_information
        sensor_event).published_clouds = [] ∧
    (on_event st error_code sensor_information
        sensor_event).published_infos = [] ∧
    (error_code < 0 →
      (on_event st error_code sensor_information sensor_event).warnings
        = ["on_event failed"] ∧
      (on_event st error_code sensor_information sensor_event).infos = []) ∧
    (0 ≤ error_code →
      (on_event st error_code sensor_information sensor_event).warnings
        = []) ∧
    (sensor_event ≠ CEPTON_EVENT_ATTACH →
      sensor_event ≠ CEPTON_EVENT_DETACH →
      (on_event st error_code sensor_information sensor_event).infos
        = []) := by
  by_cases he : error_code < 0
  · simp [on_event, he]
  · refine ⟨?_, ?_, ?_, ?_, ?_, ?_⟩ <;>
      simp [on_event, he]
    · intro h1 h2
      rw [if_neg h1, if_neg h2]

/-- C8 witness: at error code -1 and the out-of-range event value 99, the
handler leaves the state unchanged, publishes nothing, logs only the warning
and drops the notification. -/
theorem C8_on_event_no_state_effect_witness :
    (on_event wit_state (-1) wit_info 99).state = wit_state ∧
    (on_event wit_state (-1) wit_info 99).warnings = ["on_event failed"] ∧
    (on_event wit_state (-1) wit_info 99).infos = [] ∧
    (on_event wit_state (-1) wit_info 99).published_clouds = [] :=
  ⟨(C8_on_event_no_state_effect wit_state (-1) wit_info 99).1,
   ((C8_on_event_no_state_effect wit_state (-1) wit_info 99).2.2.2.1
      (by norm_num)).1,
   ((C8_on_event_no_state_effect wit_state (-1) wit_info 99).2.2.2.1
      (by norm_num)).2,
   (C8_on_event_no_state_effect wit_state (-1) wit_info 99).2.1⟩

/-- C9: on_receive dereferences the engine's SensorInfo snapshot without a
null check, so its result is defined exactly when the snapshot is present:
with a missing snapshot the run has no defined outcome, and for every call
satisfying the non-null precondition the dereference is safe and the run
produces the full result. -/
theorem C9_snapshot_deref_precondition (st : DriverState) (error_code : Int)
    (sensor_information_ptr : Option CeptonSensorInformation)
    (points : List CeptonSensorPoint) :
    on_receive st error_code sensor_information_ptr points
      = sensor_information_ptr.map
          (fun sensor_information =>
            on_receive_run st error_code sensor_information points) ∧
    ((on_receive st error_code sensor_information_ptr points).isSome
      ↔ sensor_information_ptr.isSome) := by
  cases sensor_information_ptr <;> simp [on_receive]

end CeptonRos
